import Mathlib

/-!
Verification development for the audiocontrol-director-hass integration.

The repository adapts an AudioControl Director M6400/M6800 matrix amplifier
to a home-automation host: a config flow (src/config_flow.py) that validates
a hostname and probes connectivity, and a polling coordinator plus two
entity classes (src/media_player.py) that translate host commands into
calls against the external telnet client library and project status
snapshots back into entity attributes.

Modelling conventions:
- The external telnet client library is opaque; each of its method
  invocations is recorded as a `ClientCall` value, and operations return
  the list of calls they emit, in order.
- Python floats are modelled as rationals.  The integer volume sent to the
  device is computed with round-half-to-even, matching Python round on
  Decimal values.
- Python code that raises is modelled with Option / Except: a `none` or
  `.error` result marks the exception path.
- Strings manipulated character by character (hostname validation) are
  modelled as `List Char`, restricted to ASCII semantics for the character
  classes of the validation regex.
-/

/-- Identifier of an input of the amplifier, as exposed by the external
client library (`InputID`): an id together with its display name. -/
structure InputID where
  id : Nat
  name : String
deriving DecidableEq

/-- Output identifiers are modelled as naturals; the status dictionary of
the device is keyed by their string form (`outputs[str(output_id)]`). -/
abbrev OutputID := Nat

/-- Status of a single output inside a system-status snapshot, as consumed
from the external client library: display name, power flag, integer
volume, and the currently mapped input. -/
structure OutputStatus where
  name : String
  is_on : Bool
  volume : Int
  input_id : InputID
deriving DecidableEq

/-- A system-status snapshot fetched from the device: the device name and
the dictionary of outputs keyed by the string form of the output id. -/
structure SystemStatus where
  name : String
  outputs : List (String × OutputStatus)
deriving DecidableEq

/-- One invocation of a method of the external telnet client library.
The constructors cover every client-library method invoked anywhere in
src/: `async_connect`, `async_get_system_status`, `disconnect`,
`async_set_output_power_state`, `async_set_output_volume`,
`async_map_input_to_output`. -/
inductive ClientCall where
  | connect
  | getSystemStatus
  | disconnect
  | setOutputPowerState (output_id : OutputID) (state : Bool)
  | setOutputVolume (output_id : OutputID) (volume : Int)
  | mapInputToOutput (input_id : InputID) (output_id : OutputID)
deriving DecidableEq

/-- The Python-level method name of a client call. -/
def ClientCall.methodName : ClientCall → String
  | .connect => "async_connect"
  | .getSystemStatus => "async_get_system_status"
  | .disconnect => "disconnect"
  | .setOutputPowerState _ _ => "async_set_output_power_state"
  | .setOutputVolume _ _ => "async_set_output_volume"
  | .mapInputToOutput _ _ => "async_map_input_to_output"

/-- Outcome of one attempt to fetch system status over telnet: either the
connect raises, the status request raises, or a snapshot is returned.
Failures carry the message of the `AudioControlDirectorTelnetError`. -/
inductive FetchOutcome where
  | success (st : SystemStatus)
  | connectFailure (msg : String)
  | statusFailure (msg : String)
deriving DecidableEq

/-- Whether a fetch outcome is a success. -/
def FetchOutcome.isSuccess : FetchOutcome → Bool
  | .success _ => true
  | _ => false

/-- The dictionary returned by
`AudioControlDirectorCoordinator._async_update_data` and stored as the
coordinator data: keys `system_status` and `error` (the error holds the
message of the `UpdateFailed` wrapper, when present). -/
structure CoordinatorData where
  system_status : Option SystemStatus
  error : Option String
deriving DecidableEq

/-- Polling interval of the coordinator, from
`update_interval=timedelta(seconds=2)` in
`AudioControlDirectorCoordinator.__init__` (media_player.py line 79). -/
def updateIntervalSeconds : Nat := 2

/-- Timeout wrapped around each fetch, from `async_timeout.timeout(10)` in
`_async_update_data` (media_player.py line 93). -/
def fetchTimeoutSeconds : Nat := 10

/-- `AudioControlDirectorCoordinator.async_fetch_system_status` together
with `_connect_telnet_client` (media_player.py lines 104-115): create a
client, connect, request the system status, disconnect.  Returns the
result (or the propagated error) and the trace of client calls emitted. -/
def async_fetch_system_status : FetchOutcome → Except String SystemStatus × List ClientCall
  | .connectFailure m => (.error m, [.connect])
  | .statusFailure m => (.error m, [.connect, .getSystemStatus])
  | .success st => (.ok st, [.connect, .getSystemStatus, .disconnect])

/-- Prefix of every error message stored by `_async_update_data`. -/
def telnetErrorText : String :=
  "Error communicating with AudioControl Director M6400/M6800 telnet interface: "

/-- `AudioControlDirectorCoordinator._async_update_data` (media_player.py
lines 85-102): run one fetch attempt; on success store the snapshot with
no error, on a telnet error store no snapshot and the `UpdateFailed`
message.  Also returns the trace of client calls of the tick. -/
def async_update_data (o : FetchOutcome) : CoordinatorData × List ClientCall :=
  match async_fetch_system_status o with
  | (.ok st, tr) => ({ system_status := some st, error := none }, tr)
  | (.error m, tr) => ({ system_status := none, error := some (telnetErrorText ++ m) }, tr)

/-- `AudioControlDirectorCoordinator.async_set_output_power_state`
(media_player.py lines 117-121): connect, set power, disconnect. -/
def coordinator_set_output_power_state (output_id : OutputID) (state : Bool) : List ClientCall :=
  [.connect, .setOutputPowerState output_id state, .disconnect]

/-- `AudioControlDirectorCoordinator.async_set_output_volume`
(media_player.py lines 123-127): connect, set volume, disconnect. -/
def coordinator_set_output_volume (output_id : OutputID) (volume : Int) : List ClientCall :=
  [.connect, .setOutputVolume output_id volume, .disconnect]

/-- `AudioControlDirectorCoordinator.async_set_output_input`
(media_player.py lines 129-133): connect, map input to output,
disconnect. -/
def coordinator_set_output_input (output_id : OutputID) (input_id : InputID) : List ClientCall :=
  [.connect, .mapInputToOutput input_id output_id, .disconnect]

/-- Host-visible power state of a media-player entity. -/
inductive MediaPlayerState where
  | on
  | off
deriving DecidableEq

/-- Attributes of the `DirectorDevice` entity that its coordinator-update
callback writes: `_attr_available` and `_attr_state`. -/
structure DirectorState where
  available : Bool
  state : Option MediaPlayerState
deriving DecidableEq

/-- Attributes of an `OutputDevice` entity that its callbacks and command
methods write: `_attr_available`, `_attr_state`, `_attr_volume_level`,
`_attr_is_volume_muted`, `_attr_source`. -/
structure OutputDeviceState where
  available : Bool
  state : Option MediaPlayerState
  volume_level : Option ℚ
  is_volume_muted : Option Bool
  source : Option String
deriving DecidableEq

/-- `DirectorDevice._handle_coordinator_update` (media_player.py lines
157-167): available iff the stored error is None, state ON iff the stored
error is None.  The previous attribute values are overwritten
unconditionally. -/
def directorDevice_handle_coordinator_update (data : CoordinatorData) : DirectorState :=
  { available := data.error.isNone
    state := some (if data.error.isNone then .on else .off) }

/-- `OutputDevice._handle_coordinator_update` (media_player.py lines
208-228): on a stored error, only mark unavailable; otherwise mark
available and project the output status (power flag, volume / 100, name
of the mapped input) into the attributes.  Returns `none` on the
exception paths (status absent or output key missing). -/
def outputDevice_handle_coordinator_update (data : CoordinatorData) (output_id : OutputID)
    (s : OutputDeviceState) : Option OutputDeviceState :=
  match data.error with
  | some _ => some { s with available := false }
  | none =>
    match data.system_status with
    | none => none
    | some st =>
      match st.outputs.lookup (toString output_id) with
      | none => none
      | some out =>
        some { s with
          available := true
          state := some (if out.is_on then .on else .off)
          volume_level := some (mkRat out.volume 100)
          source := some out.input_id.name }

/-- Run the `DirectorDevice` update callback over a sequence of poll
outcomes, starting from an initial attribute state. -/
def director_run (d : DirectorState) (outcomes : List FetchOutcome) : DirectorState :=
  outcomes.foldl (fun _ o => directorDevice_handle_coordinator_update (async_update_data o).1) d

/-- Run the `OutputDevice` update callback over a sequence of poll
outcomes, starting from an initial attribute state; `none` when some
update raised. -/
def output_run (output_id : OutputID) (s : OutputDeviceState) :
    List FetchOutcome → Option OutputDeviceState
  | [] => some s
  | o :: rest =>
    match outputDevice_handle_coordinator_update (async_update_data o).1 output_id s with
    | none => none
    | some s2 => output_run output_id s2 rest

/-- Round the fraction n / d (with d positive) half to even, the rounding
mode of Python round on int and Decimal values. -/
def roundHalfEven (n : Int) (d : Int) : Int :=
  let f := n.fdiv d
  let r := n.fmod d
  if 2 * r < d then f
  else if d < 2 * r then f + 1
  else if f % 2 = 0 then f else f + 1

/-- `int(round(Decimal(volume) * Decimal(100)))` (media_player.py line
262): the volume argument times 100, rounded half to even, computed on
the numerator and denominator of the exact rational value. -/
def int_volume (volume : ℚ) : Int :=
  roundHalfEven (100 * volume.num) (volume.den : Int)

/-- The inversion `{v: k for k, v in ...}` of the map from input ids to
their names built from `InputID.all()` (media_player.py lines 182-184):
look a source name up to the input id carrying it.  For duplicate names
the last input in library order wins, matching dict overwrite. -/
def input_name_to_input_id (inputs : List InputID) (source : String) : Option InputID :=
  inputs.reverse.find? (fun i => i.name == source)

/-- `OutputDevice.async_select_source` (media_player.py lines 230-239):
unknown names are ignored; a known name is mapped through the coordinator
and stored as the new source attribute. -/
def async_select_source (inputs : List InputID) (s : OutputDeviceState) (output_id : OutputID)
    (source : String) : OutputDeviceState × List ClientCall :=
  match input_name_to_input_id inputs source with
  | none => (s, [])
  | some iid => ({ s with source := some source }, coordinator_set_output_input output_id iid)

/-- `OutputDevice.async_turn_on` (media_player.py lines 241-245). -/
def async_turn_on (s : OutputDeviceState) (output_id : OutputID) :
    OutputDeviceState × List ClientCall :=
  ({ s with state := some .on }, coordinator_set_output_power_state output_id true)

/-- `OutputDevice.async_turn_off` (media_player.py lines 247-251). -/
def async_turn_off (s : OutputDeviceState) (output_id : OutputID) :
    OutputDeviceState × List ClientCall :=
  ({ s with state := some .off }, coordinator_set_output_power_state output_id false)

/-- `OutputDevice.async_set_volume_level` (media_player.py lines 257-266):
arguments outside [0, 100] are ignored; otherwise the argument times 100,
rounded, is sent to the device, the raw argument becomes the new
volume_level, and is_volume_muted records whether the sent integer is 0. -/
def async_set_volume_level (s : OutputDeviceState) (output_id : OutputID) (volume : ℚ) :
    OutputDeviceState × List ClientCall :=
  if volume < 0 ∨ volume > 100 then (s, [])
  else
    ({ s with
        volume_level := some volume
        is_volume_muted := some (decide (int_volume volume = 0)) },
      coordinator_set_output_volume output_id (int_volume volume))

/-- `OutputDevice.async_mute_volume` (media_player.py lines 253-255):
mute sets the volume level to 0, unmute sets it to 0.05. -/
def async_mute_volume (s : OutputDeviceState) (output_id : OutputID) (mute : Bool) :
    OutputDeviceState × List ClientCall :=
  async_set_volume_level s output_id (if mute then 0 else mkRat 1 20)

/-- Whether a client call is targeted at the given output. -/
def targetsOutput (output_id : OutputID) : ClientCall → Bool
  | .setOutputPowerState o _ => o == output_id
  | .setOutputVolume o _ => o == output_id
  | .mapInputToOutput _ o => o == output_id
  | _ => false

/-- A character matched by the character class `[A-Z\d-]` of the hostname
validation regex under IGNORECASE, restricted to ASCII. -/
def allowedHostChar (c : Char) : Bool :=
  c.isAlpha || c.isDigit || c == '-'

/-- Python `hostname.split(".")` on a list of characters: the segments
between dots, keeping empty segments, with `[""]` for the empty string. -/
def splitOnDot (l : List Char) : List (List Char) :=
  l.foldr
    (fun c acc =>
      if c = '.' then [] :: acc
      else
        match acc with
        | [] => [[c]]
        | a :: as => (c :: a) :: as)
    [[]]

/-- Semantics of `re.compile(r"(?!-)[A-Z\d-]{1,63}(?<!-)$", re.IGNORECASE)`
applied with `.match(x)` (config_flow.py lines 34-35): some k between 1
and 63 characters from the class are consumed from the start, the first
and last consumed characters are not hyphens, and the position after them
is the end of the string or just before a final newline (Python dollar
also matches before a trailing newline). -/
def labelRegexMatch (x : List Char) : Bool :=
  (List.range' 1 63).any (fun k =>
    k ≤ x.length
    && (x.take k).all allowedHostChar
    && x.head? != some '-'
    && (x.take k).getLast? != some '-'
    && (k == x.length || (k + 1 == x.length && x.getLast? == some '\n')))

/-- `is_valid_hostname` (config_flow.py lines 28-35): reject hostnames
longer than 255 characters; otherwise strip one trailing dot and require
every dot-separated label to match the validation regex.  On the empty
string the access `hostname[-1]` raises IndexError, modelled as `none`. -/
def is_valid_hostname (hostname : List Char) : Option Bool :=
  if hostname.length > 255 then some false
  else
    match hostname.getLast? with
    | none => none
    | some c =>
      let stripped := if c = '.' then hostname.dropLast else hostname
      some ((splitOnDot stripped).all labelRegexMatch)

/-- Errors surfaced by `async_validate_host`: the two declared flow errors
and the unhandled IndexError escaping `is_valid_hostname`. -/
inductive HostValidationError where
  | invalidHost
  | cannotConnect
  | indexError
deriving DecidableEq

/-- `async_validate_host` (config_flow.py lines 38-53): raise InvalidHost
when validation returns False (IndexError propagates when validation
itself raises), then probe connectivity by connecting and fetching the
system status, turning any probe exception into CannotConnect.  Also
returns the trace of client calls of the probe. -/
def async_validate_host (hostname : List Char) (probe : FetchOutcome) :
    Except HostValidationError Unit × List ClientCall :=
  match is_valid_hostname hostname with
  | none => (.error .indexError, [])
  | some false => (.error .invalidHost, [])
  | some true =>
    match probe with
    | .success _ => (.ok (), [.connect, .getSystemStatus])
    | .connectFailure _ => (.error .cannotConnect, [.connect])
    | .statusFailure _ => (.error .cannotConnect, [.connect, .getSystemStatus])

/-- Label validity in the words of the specification: 1 to 63 characters
drawn from letters, digits and hyphens, neither beginning nor ending with
a hyphen. -/
def specLabelOk (y : List Char) : Bool :=
  decide (1 ≤ y.length) && decide (y.length ≤ 63)
  && y.all allowedHostChar
  && y.head? != some '-'
  && y.getLast? != some '-'

/-- Strip at most one trailing dot from a hostname. -/
def stripOneTrailingDot (h : List Char) : List Char :=
  if h.getLast? = some '.' then h.dropLast else h

/-- Hostname invalidity in the words of the claim: longer than 255
characters, or some dot-separated label of the dot-stripped hostname
fails the spec label rule. -/
def hostnameInvalidSpec (h : List Char) : Bool :=
  decide (h.length > 255) || !((splitOnDot (stripOneTrailingDot h)).all specLabelOk)

/-- Label acceptance as the code actually implements it: the spec label
rule, or that rule on the label minus a single trailing newline (the
dollar anchor of the Python regex also matches before a final newline). -/
def amendedLabelOk (y : List Char) : Bool :=
  specLabelOk y || (y.getLast? == some '\n' && specLabelOk y.dropLast)

/-- Hostname invalidity as the code actually implements it: longer than
255 characters, or some dot-separated label of the dot-stripped hostname
fails the amended label rule. -/
def hostnameInvalidAmended (h : List Char) : Bool :=
  decide (h.length > 255) || !((splitOnDot (stripOneTrailingDot h)).all amendedLabelOk)

/-- The five client-library methods the specification says are the only
ones called. -/
def claimedClientMethods : List String :=
  ["async_connect", "async_get_system_status", "async_set_output_power_state",
    "async_set_output_volume", "async_map_input_to_output"]

/-- The client-library methods src/ actually calls: the five claimed ones
plus disconnect. -/
def actualClientMethods : List String :=
  claimedClientMethods ++ ["disconnect"]

/-- A sample entity attribute state, used as a concrete evaluation
point. -/
def sampleOutputState : OutputDeviceState :=
  { available := true, state := none, volume_level := none
    is_volume_muted := none, source := none }

/-- A sample input of the amplifier. -/
def sampleInput : InputID := { id := 2, name := "CD" }

/-- A sample status of output 1. -/
def sampleOutput : OutputStatus :=
  { name := "Zone 1", is_on := true, volume := 50, input_id := sampleInput }

/-- A sample system-status snapshot with a single output keyed "1". -/
def sampleStatus : SystemStatus :=
  { name := "Director", outputs := [("1", sampleOutput)] }

/-- Every client call carried out by any piece of src/ uses one of the six
method names of `actualClientMethods`. -/
theorem clientCall_methodName_mem (c : ClientCall) : c.methodName ∈ actualClientMethods := by
  cases c <;> simp [ClientCall.methodName, actualClientMethods, claimedClientMethods]

/-- C4: the coordinator polls every 2 seconds with a 10-second timeout
around each fetch, and each tick makes exactly one fetch attempt: its
client-call trace is a prefix of connect, get-system-status, disconnect,
with exactly one connect and at most one get-system-status, so there is no
retry beyond the single timeout-wrapped attempt. -/
theorem c4_poll_constants_single_attempt :
    updateIntervalSeconds = 2 ∧ fetchTimeoutSeconds = 10 ∧
    ∀ o : FetchOutcome,
      (async_update_data o).2.count ClientCall.connect = 1 ∧
      (async_update_data o).2.count ClientCall.getSystemStatus ≤ 1 ∧
      (async_update_data o).2 <+: [ClientCall.connect, .getSystemStatus, .disconnect] := by
  refine ⟨rfl, rfl, fun o => ?_⟩
  cases o with
  | success st =>
    refine ⟨rfl, ?_, ⟨[], rfl⟩⟩
    show List.count ClientCall.getSystemStatus
      [ClientCall.connect, .getSystemStatus, .disconnect] ≤ 1
    decide
  | connectFailure m =>
    refine ⟨rfl, ?_, ⟨[.getSystemStatus, .disconnect], rfl⟩⟩
    show List.count ClientCall.getSystemStatus [ClientCall.connect] ≤ 1
    decide
  | statusFailure m =>
    refine ⟨rfl, ?_, ⟨[.disconnect], rfl⟩⟩
    show List.count ClientCall.getSystemStatus [ClientCall.connect, .getSystemStatus] ≤ 1
    decide

/-- C7: the coordinator data after a tick is exactly the outcome of the
last fetch: on success it is the snapshot paired with no error, on
failure it is no snapshot paired with an error, and the stored error is
empty precisely when the fetch succeeded. -/
theorem c7_data_is_last_fetch_outcome :
    ∀ o : FetchOutcome,
      (∀ st, o = .success st → (async_update_data o).1 = { system_status := some st, error := none }) ∧
      (o.isSuccess = false →
        (async_update_data o).1.system_status = none ∧
        ((async_update_data o).1.error).isSome = true) ∧
      ((async_update_data o).1.error = none ↔ o.isSuccess = true) := by
  intro o
  cases o with
  | success st =>
    refine ⟨?_, by simp [FetchOutcome.isSuccess], by simp [async_update_data, async_fetch_system_status, FetchOutcome.isSuccess]⟩
    intro st2 he
    cases he
    rfl
  | connectFailure m =>
    refine ⟨?_, fun _ => ⟨rfl, rfl⟩, ?_⟩
    · intro st2 he
      cases he
    · simp [async_update_data, async_fetch_system_status, FetchOutcome.isSuccess]
  | statusFailure m =>
    refine ⟨?_, fun _ => ⟨rfl, rfl⟩, ?_⟩
    · intro st2 he
      cases he
    · simp [async_update_data, async_fetch_system_status, FetchOutcome.isSuccess]

/-- C7 witness: a successful tick stores the snapshot with no error, and a
failed tick stores no snapshot with an error. -/
theorem c7_witness :
    (async_update_data (.success sampleStatus)).1 = { system_status := some sampleStatus, error := none } ∧
    (async_update_data (.connectFailure "boom")).1.system_status = none ∧
    ((async_update_data (.connectFailure "boom")).1.error).isSome = true :=
  ⟨(c7_data_is_last_fetch_outcome _).1 sampleStatus rfl,
    (c7_data_is_last_fetch_outcome _).2.1 rfl⟩

/-- C9: async_set_volume_level ignores arguments outside [0, 100]; for
arguments inside the range it sends the argument times 100 rounded half
to even, stores the raw argument as the new volume_level, and marks the
output muted exactly when the sent integer is 0. -/
theorem c9_set_volume_level_guard :
    ∀ (s : OutputDeviceState) (oid : OutputID) (v : ℚ),
      ((v < 0 ∨ v > 100) → async_set_volume_level s oid v = (s, [])) ∧
      (0 ≤ v → v ≤ 100 →
        async_set_volume_level s oid v =
          ({ s with volume_level := some v
                    is_volume_muted := some (decide (int_volume v = 0)) },
            [.connect, .setOutputVolume oid (int_volume v), .disconnect])) := by
  intro s oid v
  constructor
  · intro h
    simp [async_set_volume_level, h]
  · intro h0 h1
    have hno : ¬ (v < 0 ∨ v > 100) := not_or.mpr ⟨not_lt.mpr h0, not_lt.mpr h1⟩
    simp [async_set_volume_level, hno, coordinator_set_output_volume]

/-- C9 witness: 101 is ignored, one half is sent as 50 and stored raw,
small positive values above 1 such as 2 are sent as 200. -/
theorem c9_witness :
    async_set_volume_level sampleOutputState 7 101 = (sampleOutputState, []) ∧
    async_set_volume_level sampleOutputState 7 (mkRat 1 2) =
      ({ sampleOutputState with volume_level := some (mkRat 1 2)
                                is_volume_muted := some false },
        [.connect, .setOutputVolume 7 50, .disconnect]) ∧
    async_set_volume_level sampleOutputState 7 2 =
      ({ sampleOutputState with volume_level := some 2
                                is_volume_muted := some false },
        [.connect, .setOutputVolume 7 200, .disconnect]) :=
  ⟨(c9_set_volume_level_guard sampleOutputState 7 101).1 (Or.inr (by norm_num)),
    (c9_set_volume_level_guard sampleOutputState 7 (mkRat 1 2)).2 (by norm_num) (by norm_num),
    (c9_set_volume_level_guard sampleOutputState 7 2).2 (by norm_num) (by norm_num)⟩

/-- C10: muting sets the device volume to 0 and unmuting sets the volume
level to 0.05; the result does not depend on the previously stored
volume, so no prior volume is saved or restored. -/
theorem c10_mute_is_stateless :
    ∀ (s : OutputDeviceState) (oid : OutputID),
      async_mute_volume s oid true =
        ({ s with volume_level := some 0, is_volume_muted := some true },
          [.connect, .setOutputVolume oid 0, .disconnect]) ∧
      async_mute_volume s oid false =
        ({ s with volume_level := some (mkRat 1 20), is_volume_muted := some false },
          [.connect, .setOutputVolume oid 5, .disconnect]) ∧
      ∀ (s2 : OutputDeviceState) (m : Bool),
        (async_mute_volume s oid m).1.volume_level = (async_mute_volume s2 oid m).1.volume_level ∧
        (async_mute_volume s oid m).2 = (async_mute_volume s2 oid m).2 := by
  intro s oid
  refine ⟨rfl, rfl, fun s2 m => ?_⟩
  cases m <;> exact ⟨rfl, rfl⟩

/-- C3: each host command on an output device emits exactly one client
call targeted at that output: turn on and turn off send the matching
power call, a volume in the host range sends the rounded integer volume,
and a known source name sends the map-input-to-output call with the input
id carrying that name. -/
theorem c3_commands_one_targeted_call :
    ∀ (inputs : List InputID) (s : OutputDeviceState) (oid : OutputID) (v : ℚ)
      (source : String) (iid : InputID),
      (async_turn_on s oid).2.filter (targetsOutput oid) = [.setOutputPowerState oid true] ∧
      (async_turn_off s oid).2.filter (targetsOutput oid) = [.setOutputPowerState oid false] ∧
      (0 ≤ v → v ≤ 1 →
        (async_set_volume_level s oid v).2.filter (targetsOutput oid) =
          [.setOutputVolume oid (int_volume v)]) ∧
      (input_name_to_input_id inputs source = some iid →
        (async_select_source inputs s oid source).2.filter (targetsOutput oid) =
          [.mapInputToOutput iid oid]) := by
  intro inputs s oid v source iid
  refine ⟨?_, ?_, ?_, ?_⟩
  · simp [async_turn_on, coordinator_set_output_power_state, targetsOutput]
  · simp [async_turn_off, coordinator_set_output_power_state, targetsOutput]
  · intro h0 h1
    have hno : ¬ (v < 0 ∨ v > 100) :=
      not_or.mpr ⟨not_lt.mpr h0, not_lt.mpr (le_trans h1 (by norm_num))⟩
    simp [async_set_volume_level, hno, coordinator_set_output_volume, targetsOutput]
  · intro h
    simp [async_select_source, h, coordinator_set_output_input, targetsOutput]

/-- C3 witness: the four commands evaluated on the sample output device. -/
theorem c3_witness :
    (async_turn_on sampleOutputState 1).2.filter (targetsOutput 1) =
      [.setOutputPowerState 1 true] ∧
    (async_turn_off sampleOutputState 1).2.filter (targetsOutput 1) =
      [.setOutputPowerState 1 false] ∧
    (async_set_volume_level sampleOutputState 1 (mkRat 1 2)).2.filter (targetsOutput 1) =
      [.setOutputVolume 1 50] ∧
    (async_select_source [sampleInput] sampleOutputState 1 "CD").2.filter (targetsOutput 1) =
      [.mapInputToOutput sampleInput 1] :=
  ⟨(c3_commands_one_targeted_call [sampleInput] sampleOutputState 1 (mkRat 1 2) "CD" sampleInput).1,
    (c3_commands_one_targeted_call [sampleInput] sampleOutputState 1 (mkRat 1 2) "CD" sampleInput).2.1,
    (c3_commands_one_targeted_call [sampleInput] sampleOutputState 1 (mkRat 1 2) "CD" sampleInput).2.2.1
      (by norm_num) (by norm_num),
    (c3_commands_one_targeted_call [sampleInput] sampleOutputState 1 (mkRat 1 2) "CD" sampleInput).2.2.2
      rfl⟩

/-- C2: on a successful poll the output-device callback marks the entity
available and projects the snapshot of its output: state ON exactly when
the power flag is set, volume level equal to the integer volume divided
by 100, and source equal to the name of the mapped input. -/
theorem c2_success_projects_snapshot :
    ∀ (st : SystemStatus) (oid : OutputID) (out : OutputStatus) (s : OutputDeviceState),
      st.outputs.lookup (toString oid) = some out →
      outputDevice_handle_coordinator_update (async_update_data (.success st)).1 oid s =
        some { s with
          available := true
          state := some (if out.is_on then .on else .off)
          volume_level := some (mkRat out.volume 100)
          source := some out.input_id.name } := by
  intro st oid out s h
  simp [async_update_data, async_fetch_system_status,
    outputDevice_handle_coordinator_update, h]

/-- C2 witness: the sample snapshot projected into the entity attributes
of output 1. -/
theorem c2_witness :
    outputDevice_handle_coordinator_update (async_update_data (.success sampleStatus)).1 1
        sampleOutputState =
      some { sampleOutputState with
        available := true
        state := some .on
        volume_level := some (mkRat 1 2)
        source := some "CD" } :=
  c2_success_projects_snapshot sampleStatus 1 sampleOutput sampleOutputState rfl

/-- C8: hostname validation is total exactly on non-empty strings: every
non-empty hostname yields a Boolean verdict, and the empty hostname hits
the out-of-range index access hostname[-1], modelled as none. -/
theorem c8_hostname_total_iff_nonempty :
    (∀ h : List Char, h ≠ [] → (is_valid_hostname h).isSome = true) ∧
    is_valid_hostname [] = none := by
  constructor
  · intro h hne
    unfold is_valid_hostname
    by_cases hlen : h.length > 255
    · simp [hlen]
    · cases hgl : h.getLast? with
      | none =>
        exact absurd (by simpa using hgl) hne
      | some c =>
        simp [hlen, hgl]
  · rfl

/-- C8 witness: a one-letter hostname gets a verdict, the empty hostname
raises. -/
theorem c8_witness :
    (is_valid_hostname ['a']).isSome = true ∧ is_valid_hostname [] = none :=
  ⟨c8_hostname_total_iff_nonempty.1 ['a'] (by simp),
    c8_hostname_total_iff_nonempty.2⟩

/-- The director callback leaves the entity available exactly when the
tick succeeded. -/
theorem director_handle_available (o : FetchOutcome) :
    (directorDevice_handle_coordinator_update (async_update_data o).1).available =
      o.isSuccess := by
  cases o <;> rfl

/-- Whenever the output callback returns a state, that state is available
exactly when the tick succeeded. -/
theorem output_handle_available (o : FetchOutcome) (oid : OutputID) (s : OutputDeviceState) :
    ∀ s2, outputDevice_handle_coordinator_update (async_update_data o).1 oid s = some s2 →
      s2.available = o.isSuccess := by
  intro s2 hs
  cases o with
  | success st =>
    simp only [async_update_data, async_fetch_system_status,
      outputDevice_handle_coordinator_update] at hs
    cases hl : st.outputs.lookup (toString oid) with
    | none => rw [hl] at hs; cases hs
    | some out =>
      rw [hl] at hs
      cases hs
      rfl
  | connectFailure m =>
    simp only [async_update_data, async_fetch_system_status,
      outputDevice_handle_coordinator_update] at hs
    cases hs
    rfl
  | statusFailure m =>
    simp only [async_update_data, async_fetch_system_status,
      outputDevice_handle_coordinator_update] at hs
    cases hs
    rfl

/-- Running the output callback over a trace ending in outcome o, when it
returns a state, yields availability equal to the success of o. -/
theorem output_run_last (oid : OutputID) (o : FetchOutcome) :
    ∀ (pre : List FetchOutcome) (s : OutputDeviceState) (s2 : OutputDeviceState),
      output_run oid s (pre ++ [o]) = some s2 → s2.available = o.isSuccess := by
  intro pre
  induction pre with
  | nil =>
    intro s s2 hrun
    simp only [List.nil_append, output_run] at hrun
    cases hh : outputDevice_handle_coordinator_update (async_update_data o).1 oid s with
    | none => rw [hh] at hrun; cases hrun
    | some s3 =>
      rw [hh] at hrun
      simp only [output_run, Option.some_inj] at hrun
      have hav := output_handle_available o oid s s3 hh
      rwa [hrun] at hav
  | cons p ps ih =>
    intro s s2 hrun
    simp only [List.cons_append, output_run] at hrun
    cases hh : outputDevice_handle_coordinator_update (async_update_data p).1 oid s with
    | none => rw [hh] at hrun; cases hrun
    | some s3 =>
      rw [hh] at hrun
      exact ih s3 s2 hrun

/-- C1: after any poll trace ending in outcome o, the director entity and
any output entity are available exactly when o succeeded: a failed poll
marks them unavailable, they stay unavailable after further failed polls,
and the next successful poll makes them available again. -/
theorem c1_available_iff_last_poll_ok :
    ∀ (pre : List FetchOutcome) (o : FetchOutcome) (d : DirectorState)
      (s : OutputDeviceState) (oid : OutputID),
      (director_run d (pre ++ [o])).available = o.isSuccess ∧
      (∀ s2, output_run oid s (pre ++ [o]) = some s2 → s2.available = o.isSuccess) := by
  intro pre o d s oid
  constructor
  · rw [director_run, List.foldl_append]
    exact director_handle_available o
  · exact fun s2 h => output_run_last oid o pre s s2 h

/-- C1 witness: after a successful poll followed by a failed poll, both
entities are unavailable. -/
theorem c1_witness :
    (director_run { available := true, state := none }
        ([.success sampleStatus] ++ [.connectFailure "boom"])).available =
      (FetchOutcome.connectFailure "boom").isSuccess ∧
    (OutputDeviceState.available
        { available := false, state := some .on, volume_level := some (mkRat 1 2)
          is_volume_muted := none, source := some "CD" }) =
      (FetchOutcome.connectFailure "boom").isSuccess :=
  ⟨(c1_available_iff_last_poll_ok [.success sampleStatus] (.connectFailure "boom")
      { available := true, state := none } sampleOutputState 1).1,
    (c1_available_iff_last_poll_ok [.success sampleStatus] (.connectFailure "boom")
      { available := true, state := none } sampleOutputState 1).2
      { available := false, state := some .on, volume_level := some (mkRat 1 2)
        is_volume_muted := none, source := some "CD" }
      (by decide)⟩

/-- C6 counterexample: the fetch operation also invokes the client-library
method disconnect, which is not among the five methods the claim lists,
so the claim that no other client-library method is ever invoked is false
on the code. -/
theorem c6_counterexample :
    ClientCall.disconnect ∈ (async_fetch_system_status (.success sampleStatus)).2 ∧
    ClientCall.disconnect.methodName ∉ claimedClientMethods := by
  exact ⟨by decide, by decide⟩

/-- C6 amended: across all of its operations the repository calls exactly
six client-library methods: the five listed by the claim plus disconnect.
Every call emitted by any operation bears one of those six names, and
disconnect really occurs. -/
theorem c6_amended_six_methods :
    ∀ (o : FetchOutcome) (h : List Char) (s : OutputDeviceState) (oid : OutputID)
      (v : ℚ) (inputs : List InputID) (source : String) (m : Bool) (b : Bool),
      (∀ c ∈ (async_update_data o).2, c.methodName ∈ actualClientMethods) ∧
      (∀ c ∈ (async_validate_host h o).2, c.methodName ∈ actualClientMethods) ∧
      (∀ c ∈ coordinator_set_output_power_state oid b, c.methodName ∈ actualClientMethods) ∧
      (∀ c ∈ (async_set_volume_level s oid v).2, c.methodName ∈ actualClientMethods) ∧
      (∀ c ∈ (async_select_source inputs s oid source).2, c.methodName ∈ actualClientMethods) ∧
      (∀ c ∈ (async_mute_volume s oid m).2, c.methodName ∈ actualClientMethods) ∧
      "disconnect" ∈ (async_fetch_system_status (.success sampleStatus)).2.map
        ClientCall.methodName := by
  intro o h s oid v inputs source m b
  refine ⟨fun c _ => clientCall_methodName_mem c, fun c _ => clientCall_methodName_mem c,
    fun c _ => clientCall_methodName_mem c, fun c _ => clientCall_methodName_mem c,
    fun c _ => clientCall_methodName_mem c, fun c _ => clientCall_methodName_mem c, ?_⟩
  decide

/-- C6 amended witness: the connect call of a successful tick bears an
allowed name, and disconnect occurs in the fetch trace. -/
theorem c6_witness :
    ClientCall.connect.methodName ∈ actualClientMethods ∧
    "disconnect" ∈ (async_fetch_system_status (.success sampleStatus)).2.map
      ClientCall.methodName :=
  ⟨(c6_amended_six_methods (.success sampleStatus) [] sampleOutputState 1 0 [] "CD" true
      true).1 .connect (by decide),
    (c6_amended_six_methods (.success sampleStatus) [] sampleOutputState 1 0 [] "CD" true
      true).2.2.2.2.2.2⟩

/-- Taking at least one character preserves the head. -/
theorem head?_take_of_pos (x : List Char) (k : Nat) (hk : 1 ≤ k) :
    (x.take k).head? = x.head? := by
  cases x with
  | nil => simp
  | cons a l =>
    cases k with
    | zero => omega
    | succ n => simp [List.take]

/-- The label regex accepts exactly the labels valid by the spec rule, or
such a label followed by one trailing newline. -/
theorem labelRegexMatch_iff (x : List Char) :
    labelRegexMatch x = true ↔
      (specLabelOk x = true ∨
        (x.getLast? = some '\n' ∧ specLabelOk x.dropLast = true)) := by
  unfold labelRegexMatch specLabelOk
  rw [List.any_eq_true]
  constructor
  · rintro ⟨k, hmem, hf⟩
    rw [List.mem_range'_1] at hmem
    obtain ⟨hk1, hk64⟩ := hmem
    simp only [Bool.and_eq_true, decide_eq_true_eq, bne_iff_ne, ne_eq,
      Bool.or_eq_true, beq_iff_eq] at hf
    obtain ⟨⟨⟨⟨hklen, hall⟩, hhead⟩, hlast⟩, hend⟩ := hf
    rcases hend with hkeq | ⟨hk1eq, hnl⟩
    · left
      have hx : x.take k = x := by rw [hkeq]; exact List.take_length x
      rw [hx] at hall hlast
      simp only [Bool.and_eq_true, decide_eq_true_eq, bne_iff_ne, ne_eq]
      exact ⟨⟨⟨⟨by omega, by omega⟩, hall⟩, hhead⟩, hlast⟩
    · right
      have hx : x.take k = x.dropLast := by
        rw [List.dropLast_eq_take]
        congr 1
        omega
      have hhead2 : x.dropLast.head? ≠ some '-' := by
        rw [← hx, head?_take_of_pos x k hk1]
        exact hhead
      rw [hx] at hall hlast
      refine ⟨hnl, ?_⟩
      simp only [Bool.and_eq_true, decide_eq_true_eq, bne_iff_ne, ne_eq,
        List.length_dropLast]
      exact ⟨⟨⟨⟨by omega, by omega⟩, hall⟩, hhead2⟩, hlast⟩
  · intro hcases
    rcases hcases with hspec | ⟨hnl, hspec⟩
    · simp only [Bool.and_eq_true, decide_eq_true_eq, bne_iff_ne, ne_eq] at hspec
      obtain ⟨⟨⟨⟨h1, h63⟩, hall⟩, hhead⟩, hlast⟩ := hspec
      refine ⟨x.length, List.mem_range'_1.mpr ⟨h1, by omega⟩, ?_⟩
      have hx : x.take x.length = x := List.take_length x
      simp only [Bool.and_eq_true, decide_eq_true_eq, bne_iff_ne, ne_eq,
        Bool.or_eq_true, beq_iff_eq, hx]
      exact ⟨⟨⟨⟨le_refl _, hall⟩, hhead⟩, hlast⟩, Or.inl trivial⟩
    · simp only [Bool.and_eq_true, decide_eq_true_eq, bne_iff_ne, ne_eq,
        List.length_dropLast] at hspec
      obtain ⟨⟨⟨⟨h1, h63⟩, hall⟩, hhead⟩, hlast⟩ := hspec
      have hxlen : 1 ≤ x.length := by omega
      have hx : x.take (x.length - 1) = x.dropLast := (List.dropLast_eq_take x).symm
      refine ⟨x.length - 1, List.mem_range'_1.mpr ⟨by omega, by omega⟩, ?_⟩
      have hhead2 : x.head? ≠ some '-' := by
        rw [← head?_take_of_pos x (x.length - 1) (by omega), hx]
        exact hhead
      simp only [Bool.and_eq_true, decide_eq_true_eq, bne_iff_ne, ne_eq,
        Bool.or_eq_true, beq_iff_eq, hx]
      exact ⟨⟨⟨⟨by omega, hall⟩, hhead2⟩, hlast⟩, Or.inr ⟨by omega, hnl⟩⟩

/-- The label regex and the amended label rule agree on every label. -/
theorem labelRegexMatch_eq (x : List Char) : labelRegexMatch x = amendedLabelOk x := by
  rw [Bool.eq_iff_iff, labelRegexMatch_iff]
  simp [amendedLabelOk, Bool.or_eq_true, Bool.and_eq_true, beq_iff_eq]

/-- On non-empty hostnames the code validator computes exactly the
negation of the amended invalidity predicate. -/
theorem is_valid_hostname_nonempty (h : List Char) (hne : h ≠ []) :
    is_valid_hostname h = some (!hostnameInvalidAmended h) := by
  unfold is_valid_hostname hostnameInvalidAmended
  by_cases hlen : h.length > 255
  · simp [hlen]
  · cases hgl : h.getLast? with
    | none => exact absurd (by simpa using hgl) hne
    | some c =>
      have hfun : labelRegexMatch = amendedLabelOk := funext labelRegexMatch_eq
      simp only [hlen, if_neg, decide_eq_true_eq, hfun, stripOneTrailingDot, hgl,
        Option.some_inj, decide_eq_false_iff_not, Bool.false_or, Bool.not_not]
      by_cases hc : c = '.'
      · simp [hc, hlen]
      · have : (some c = some '.') = False := by simp [hc]
        simp [hc, this, hlen]

/-- A hostname containing a newline, which the spec rule rejects but the
code accepts. -/
def newlineHostname : List Char := ['a', 'b', '\n']

/-- C5 counterexample: the hostname "ab" followed by a newline is invalid
by the claimed rule (a newline is not a letter, digit or hyphen), yet
async_validate_host returns normally on it instead of raising
InvalidHost; and on the empty hostname the validator raises IndexError,
not InvalidHost, although the empty label fails the claimed rule. -/
theorem c5_counterexample :
    hostnameInvalidSpec newlineHostname = true ∧
    (async_validate_host newlineHostname (.success sampleStatus)).1 = .ok () ∧
    hostnameInvalidSpec [] = true ∧
    (async_validate_host [] (.success sampleStatus)).1 = .error .indexError :=
  ⟨by decide, rfl, by decide, rfl⟩

/-- C5 amended: for every non-empty hostname, async_validate_host raises
InvalidHost exactly when the hostname is invalid under the amended rule
(the claimed rule relaxed by also accepting a label that carries one
trailing newline before the end), raises CannotConnect exactly when the
hostname passes and the connectivity probe throws, and returns normally
exactly when the hostname passes and the probe succeeds. -/
theorem c5_amended_validate_host :
    ∀ (h : List Char) (probe : FetchOutcome), h ≠ [] →
      ((async_validate_host h probe).1 = .error .invalidHost ↔
        hostnameInvalidAmended h = true) ∧
      ((async_validate_host h probe).1 = .error .cannotConnect ↔
        (hostnameInvalidAmended h = false ∧ probe.isSuccess = false)) ∧
      ((async_validate_host h probe).1 = .ok () ↔
        (hostnameInvalidAmended h = false ∧ probe.isSuccess = true)) := by
  intro h probe hne
  have hv := is_valid_hostname_nonempty h hne
  unfold async_validate_host
  rw [hv]
  cases hb : hostnameInvalidAmended h with
  | false => cases probe <;> simp [FetchOutcome.isSuccess]
  | true => cases probe <;> simp [FetchOutcome.isSuccess]

/-- C5 amended witness: a hostname starting with a hyphen raises
InvalidHost, and the newline hostname with a reachable device returns
normally. -/
theorem c5_witness :
    ((async_validate_host ['-', 'a'] (.success sampleStatus)).1 = .error .invalidHost ↔
      hostnameInvalidAmended ['-', 'a'] = true) ∧
    ((async_validate_host newlineHostname (.success sampleStatus)).1 = .ok () ↔
      (hostnameInvalidAmended newlineHostname = false ∧
        (FetchOutcome.success sampleStatus).isSuccess = true)) :=
  ⟨(c5_amended_validate_host ['-', 'a'] (.success sampleStatus) (by simp)).1,
    (c5_amended_validate_host newlineHostname (.success sampleStatus) (by simp [newlineHostname])).2.2⟩
